import Mathlib

/-!
Shallow embedding of `sigma/pipelines/uberagent/transformation.py` and proofs
about its three transformation classes:

* `FieldMappingTransformationLowercase` — a case-insensitive field mapper that
  lowercases the queried field name before delegating to the base lookup;
* `FieldDetectionItemFailureTransformation` — a transformation that always
  raises a `SigmaTransformationError` built by formatting its message template
  with the detection item's field name;
* `ReferencedFieldTransformation` — a pass that validates that every value of
  the pipeline's field-mapping table is a one-element set and publishes the
  list of sole elements under the `"Fields"` slot of the pipeline state.

Python exceptions are modelled by `Except` / option-of-error results, Python
dictionaries by association lists in iteration order, and Python sets by the
list of their elements in iteration order.
-/

namespace UberAgent

/-- The Python-level errors the module can raise: the deliberate
`SigmaTransformationError`, the `TypeError` and `ValueError` of the field
collector, and the `IndexError` that `str.format` raises when a positional
placeholder has no matching argument. -/
inductive PyError where
  | sigmaTransformationError (msg : String)
  | typeError (msg : String)
  | valueError (msg : String)
  | indexError
  deriving DecidableEq, Repr

/-- One token of a Python format string: a literal character, or one
auto-numbered positional placeholder (an open brace directly followed by a
close brace in the source text). -/
inductive FormatToken where
  | lit (c : Char)
  | hole
  deriving DecidableEq, Repr

/-- A message template, as the sequence of its tokens. -/
abbrev Template := List FormatToken

/-- The number of positional placeholders in a template. -/
def countHoles : Template → Nat
  | [] => 0
  | .hole :: rest => countHoles rest + 1
  | .lit _ :: rest => countHoles rest

/-- The template rendered back as the Python source string: literal characters
verbatim, each placeholder as its two-character brace pair. -/
def templateStr : Template → String
  | [] => ""
  | .lit c :: rest => c.toString ++ templateStr rest
  | .hole :: rest => "\x7b\x7d" ++ templateStr rest

/-- Python `template.format(*args)` restricted to auto-numbered positional
placeholders: each placeholder consumes the next argument in order; a
placeholder with no argument left raises `IndexError` (modelled as `none`);
surplus arguments are ignored, as in Python. -/
def pyFormat : Template → List String → Option String
  | [], _ => some ""
  | .lit c :: rest, args => (pyFormat rest args).map (fun s => c.toString ++ s)
  | .hole :: _, [] => none
  | .hole :: rest, a :: args => (pyFormat rest args).map (fun s => a ++ s)

/-- A Sigma detection item: a field name paired with its match values.
Only the `field` attribute is read by this module. -/
structure SigmaDetectionItem where
  field : String
  value : List String
  deriving DecidableEq, Repr

/-- The result of a field-mapping lookup when a mapping exists: a single
target field name, or an ordered list of target field names. `none` at the
`Option` level is the absence signal. -/
inductive MappingTarget where
  | single (s : String)
  | multiple (l : List String)
  deriving DecidableEq, Repr

/-- Python `field.lower()`: the per-character lowercase mapping of the
string (Lean's `String.toLower` computes the same mapping but through
byte-position recursion that does not reduce; this list form does). -/
def pyLower (s : String) : String := String.mk (s.data.map Char.toLower)

/-- Modelled from the spec: the base `FieldMappingTransformation` of the
external framework (its code is not in this repository) exposes
`get_mapping(field) -> None | str | list[str]`, a case-sensitive dictionary
lookup of the field name against the configured mapping table. -/
def FieldMappingTransformation.get_mapping
    (mapping : List (String × MappingTarget)) (field : String) :
    Option MappingTarget :=
  mapping.lookup field

/-- `FieldMappingTransformationLowercase.get_mapping`: the source returns
`super().get_mapping(field.lower())`, the base lookup applied to the
lowercased field name. -/
def FieldMappingTransformationLowercase.get_mapping
    (mapping : List (String × MappingTarget)) (field : String) :
    Option MappingTarget :=
  FieldMappingTransformation.get_mapping mapping (pyLower field)

/-- `FieldDetectionItemFailureTransformation`: carries the error message
template. -/
structure FieldDetectionItemFailureTransformation where
  message : Template
  deriving DecidableEq, Repr

/-- `apply_detection_item`: the body is the single statement
`raise SigmaTransformationError(self.message.format(detection_item.field))`.
When the format call itself raises (`IndexError`), that error propagates
instead and the `SigmaTransformationError` is never constructed. -/
def FieldDetectionItemFailureTransformation.apply_detection_item
    (t : FieldDetectionItemFailureTransformation) (d : SigmaDetectionItem) :
    Except PyError Unit :=
  match pyFormat t.message [d.field] with
  | some s => .error (.sigmaTransformationError s)
  | none => .error .indexError

/-- The pipeline's shared mutable state: named slots holding lists of
strings (the only slot this module writes is `"Fields"`). -/
abbrev PipelineState := List (String × List String)

/-- The call to `apply_detection_item` observed together with the detection
item and the pipeline state after it returns: the method body is a single
`raise` with no assignment, so both come back exactly as they went in. -/
def FieldDetectionItemFailureTransformation.apply_detection_item_run
    (t : FieldDetectionItemFailureTransformation) (d : SigmaDetectionItem)
    (st : PipelineState) :
    Except PyError Unit × SigmaDetectionItem × PipelineState :=
  (t.apply_detection_item d, d, st)

/-- A value of the pipeline's field-mapping table: an actual Python `set`,
carried as the list of its elements in iteration order, or a value of any
other runtime type, carried with that type's name (`type(value).__name__`). -/
inductive FMValue where
  | pset (elems : List String)
  | nonSet (typeName : String)
  deriving DecidableEq, Repr

/-- The pipeline object as seen by this module: its field-mapping table in
iteration order, and its shared state. -/
structure Pipeline where
  field_mappings : List (String × FMValue)
  state : PipelineState
  deriving DecidableEq, Repr

/-- Python dictionary assignment `state[key] = v`: replaces the value of an
existing key in place, appends a new binding otherwise. -/
def stateSet : PipelineState → String → List String → PipelineState
  | [], k, v => [(k, v)]
  | (k0, v0) :: rest, k, v =>
      if k0 = k then (k, v) :: rest else (k0, v0) :: stateSet rest k v

/-- Python dictionary read `state[key]`, as an option. -/
def stateGet : PipelineState → String → Option (List String)
  | [], _ => none
  | (k0, v0) :: rest, k => if k0 = k then some v0 else stateGet rest k

/-- Whether a table value passes both checks of the collector's loop body:
it is a set, and it has exactly one element. -/
def isOneElemSet : FMValue → Bool
  | .pset elems => elems.length == 1
  | .nonSet _ => false

/-- The loop of `ReferencedFieldTransformation.apply` over the table entries
in iteration order: for each entry, first the `isinstance(value, set)` check
(raising `TypeError`), then the `len(value) != 1` check (raising
`ValueError`), then `str(list(value)[0])` — the first element of the set's
iteration order; `str` of a string is the string itself — is appended to the
local `fields` list. The first failing entry determines the raised error. -/
def collectFields : List (String × FMValue) → Except PyError (List String)
  | [] => .ok []
  | (key, .nonSet tn) :: _ =>
      .error (.typeError ("Expected a set for key '" ++ key ++ "', but got "
        ++ tn ++ " instead."))
  | (key, .pset elems) :: rest =>
      if elems.length = 1 then
        (collectFields rest).map (fun fs => elems.headD "" :: fs)
      else
        .error (.valueError ("Expected a set with exactly one element for key '"
          ++ key ++ "', but got " ++ toString elems.length
          ++ " elements instead."))

/-- `ReferencedFieldTransformation.apply`. The delegated base
`Transformation.apply` only records the pipeline and rule on the
transformation object and touches neither the table nor the state, so it is
elided. The local `fields` list is written to `pipeline.state["Fields"]` by
the single statement after the loop; when the loop raises, the pipeline is
returned unchanged together with the error. -/
def ReferencedFieldTransformation.apply (p : Pipeline) :
    Option PyError × Pipeline :=
  match collectFields p.field_mappings with
  | .ok fields => (none, { p with state := stateSet p.state "Fields" fields })
  | .error e => (some e, p)

/-- Whether an optional error is a `TypeError`. -/
def isTypeError : Option PyError → Bool
  | some (.typeError _) => true
  | _ => false

/-- Whether an optional error is a `ValueError`. -/
def isValueError : Option PyError → Bool
  | some (.valueError _) => true
  | _ => false

/-! Helper lemmas about `pyFormat`. -/

lemma pyFormat_isSome_of_holes_le (t : Template) :
    ∀ args : List String, countHoles t ≤ args.length →
      ∃ s, pyFormat t args = some s := by
  induction t with
  | nil => exact fun args _ => ⟨"", rfl⟩
  | cons tok rest ih =>
    intro args h
    cases tok with
    | lit c =>
      obtain ⟨s, hs⟩ := ih args (by simpa [countHoles] using h)
      exact ⟨c.toString ++ s, by simp [pyFormat, hs]⟩
    | hole =>
      cases args with
      | nil => simp [countHoles] at h
      | cons a as =>
        obtain ⟨s, hs⟩ := ih as (by simp [countHoles] at h; omega)
        exact ⟨a ++ s, by simp [pyFormat, hs]⟩

lemma pyFormat_of_no_holes (t : Template) (h : countHoles t = 0) :
    ∀ args : List String, pyFormat t args = some (templateStr t) := by
  induction t with
  | nil => intro args; rfl
  | cons tok rest ih =>
    intro args
    cases tok with
    | lit c => simp [pyFormat, templateStr, ih (by simpa [countHoles] using h) args]
    | hole => simp [countHoles] at h

lemma pyFormat_none_of_args_lt (t : Template) :
    ∀ args : List String, args.length < countHoles t →
      pyFormat t args = none := by
  induction t with
  | nil => intro args h; simp [countHoles] at h
  | cons tok rest ih =>
    intro args h
    cases tok with
    | lit c => simp [pyFormat, ih args (by simpa [countHoles] using h)]
    | hole =>
      cases args with
      | nil => rfl
      | cons a as =>
        have : as.length < countHoles rest := by
          simp [countHoles] at h; omega
        simp [pyFormat, ih as this]

/-- C1: for every detection item and every message template containing one
placeholder, `apply_detection_item` never returns normally: it raises a
`SigmaTransformationError` whose message is the template formatted with the
detection item's field name. -/
theorem apply_detection_item_raises_formatted
    (d : SigmaDetectionItem) (m : Template) (h : countHoles m = 1) :
    ∃ s, pyFormat m [d.field] = some s ∧
      FieldDetectionItemFailureTransformation.apply_detection_item ⟨m⟩ d =
        Except.error (PyError.sigmaTransformationError s) := by
  obtain ⟨s, hs⟩ := pyFormat_isSome_of_holes_le m [d.field] (by simp [h])
  exact ⟨s, hs,
    by simp [FieldDetectionItemFailureTransformation.apply_detection_item, hs]⟩

/-- Witness for C1 at a one-placeholder template and a concrete item. -/
theorem apply_detection_item_raises_formatted_witness :
    countHoles [FormatToken.hole] = 1 ∧
    ∃ s, pyFormat [FormatToken.hole] ["CommandLine"] = some s ∧
      FieldDetectionItemFailureTransformation.apply_detection_item
          ⟨[FormatToken.hole]⟩ ⟨"CommandLine", []⟩ =
        Except.error (PyError.sigmaTransformationError s) :=
  ⟨by decide,
    apply_detection_item_raises_formatted ⟨"CommandLine", []⟩ [FormatToken.hole]
      (by decide)⟩

/-- C8: when the message template has no placeholder, `apply_detection_item`
still raises a `SigmaTransformationError`, whose message is the template
itself; the formatting raises nothing. -/
theorem apply_detection_item_no_placeholder
    (d : SigmaDetectionItem) (m : Template) (h : countHoles m = 0) :
    FieldDetectionItemFailureTransformation.apply_detection_item ⟨m⟩ d =
      Except.error (PyError.sigmaTransformationError (templateStr m)) := by
  simp [FieldDetectionItemFailureTransformation.apply_detection_item,
    pyFormat_of_no_holes m h]

/-- Witness for C8 at a placeholder-free template. -/
theorem apply_detection_item_no_placeholder_witness :
    countHoles [FormatToken.lit 'n', FormatToken.lit 'o'] = 0 ∧
    FieldDetectionItemFailureTransformation.apply_detection_item
        ⟨[FormatToken.lit 'n', FormatToken.lit 'o']⟩ ⟨"Image", ["x"]⟩ =
      Except.error (PyError.sigmaTransformationError
        (templateStr [FormatToken.lit 'n', FormatToken.lit 'o'])) :=
  ⟨by decide,
    apply_detection_item_no_placeholder ⟨"Image", ["x"]⟩
      [FormatToken.lit 'n', FormatToken.lit 'o'] (by decide)⟩

/-- C10: when the message template has two or more positional placeholders,
the format call receives only the single field argument and raises
`IndexError`; no `SigmaTransformationError` is constructed. -/
theorem apply_detection_item_two_placeholders
    (d : SigmaDetectionItem) (m : Template) (h : 2 ≤ countHoles m) :
    FieldDetectionItemFailureTransformation.apply_detection_item ⟨m⟩ d =
      Except.error PyError.indexError := by
  have hnone : pyFormat m [d.field] = none :=
    pyFormat_none_of_args_lt m [d.field] (by simp; omega)
  simp [FieldDetectionItemFailureTransformation.apply_detection_item, hnone]

/-- Witness for C10 at a two-placeholder template. -/
theorem apply_detection_item_two_placeholders_witness :
    2 ≤ countHoles [FormatToken.hole, FormatToken.hole] ∧
    FieldDetectionItemFailureTransformation.apply_detection_item
        ⟨[FormatToken.hole, FormatToken.hole]⟩ ⟨"Image", []⟩ =
      Except.error PyError.indexError :=
  ⟨by decide,
    apply_detection_item_two_placeholders ⟨"Image", []⟩
      [FormatToken.hole, FormatToken.hole] (by decide)⟩

/-- C9: `apply_detection_item` mutates neither the detection item nor the
pipeline state — both are identical after the call — and the call never
returns normally. -/
theorem apply_detection_item_frame
    (t : FieldDetectionItemFailureTransformation) (d : SigmaDetectionItem)
    (st : PipelineState) :
    (t.apply_detection_item_run d st).2.1 = d ∧
    (t.apply_detection_item_run d st).2.2 = st ∧
    ∀ u : Unit, (t.apply_detection_item_run d st).1 ≠ Except.ok u := by
  refine ⟨rfl, rfl, fun u => ?_⟩
  simp only [FieldDetectionItemFailureTransformation.apply_detection_item_run,
    FieldDetectionItemFailureTransformation.apply_detection_item]
  cases h : pyFormat t.message [d.field] <;> simp

/-- C3: for every field name and every mapping table keyed by lowercase
strings, the case-insensitive lookup returns exactly the base case-sensitive
lookup applied to the lowercased field name — same three-way result shape,
no side effects. -/
theorem get_mapping_lowercase_delegates
    (T : List (String × MappingTarget)) (f : String)
    (_hkeys : ∀ kv ∈ T, pyLower kv.1 = kv.1) :
    FieldMappingTransformationLowercase.get_mapping T f =
      FieldMappingTransformation.get_mapping T (pyLower f) := rfl

/-- Witness for C3 at a one-entry lowercase-keyed table and a mixed-case
query. -/
theorem get_mapping_lowercase_delegates_witness :
    (∀ kv ∈ [("image", MappingTarget.single "Proc.Image")],
      pyLower (kv : String × MappingTarget).1 = kv.1) ∧
    FieldMappingTransformationLowercase.get_mapping
        [("image", MappingTarget.single "Proc.Image")] "Image" =
      FieldMappingTransformation.get_mapping
        [("image", MappingTarget.single "Proc.Image")] (pyLower "Image") :=
  ⟨by decide,
    get_mapping_lowercase_delegates
      [("image", MappingTarget.single "Proc.Image")] "Image" (by decide)⟩

/-! Helper lemmas about the field collector and the state dictionary. -/

lemma stateGet_stateSet (st : PipelineState) (k : String) (v : List String) :
    stateGet (stateSet st k v) k = some v := by
  induction st with
  | nil => simp [stateSet, stateGet]
  | cons kv rest ih =>
    obtain ⟨k0, v0⟩ := kv
    by_cases hk : k0 = k <;> simp [stateSet, stateGet, hk, ih]

lemma stateSet_stateSet (st : PipelineState) (k : String) (v w : List String) :
    stateSet (stateSet st k v) k w = stateSet st k w := by
  induction st with
  | nil => simp [stateSet]
  | cons kv rest ih =>
    obtain ⟨k0, v0⟩ := kv
    by_cases hk : k0 = k <;> simp [stateSet, hk, ih]

lemma collectFields_ok_of_valid (fm : List (String × FMValue))
    (hv : ∀ kv ∈ fm, isOneElemSet kv.2 = true) :
    ∃ fs, collectFields fm = .ok fs ∧ fs.length = fm.length ∧
      ∀ i, i < fm.length →
        ∃ k e, fm[i]? = some (k, FMValue.pset [e]) ∧ fs[i]? = some e := by
  induction fm with
  | nil => exact ⟨[], rfl, rfl, fun i hi => absurd hi (by simp)⟩
  | cons kv rest ih =>
    obtain ⟨k, v⟩ := kv
    have hhd : isOneElemSet v = true := hv (k, v) (List.mem_cons_self _ _)
    cases v with
    | nonSet tn => simp [isOneElemSet] at hhd
    | pset elems =>
      have hlen : elems.length = 1 := by simpa [isOneElemSet] using hhd
      obtain ⟨e, rfl⟩ := List.length_eq_one.mp hlen
      obtain ⟨fs, hfs, hfslen, hidx⟩ :=
        ih (fun kv hkv => hv kv (List.mem_cons_of_mem _ hkv))
      refine ⟨e :: fs, ?_, by simp [hfslen], ?_⟩
      · simp [collectFields, hfs, Except.map]
      · intro i hi
        cases i with
        | zero => exact ⟨k, e, by simp, by simp⟩
        | succ j =>
          obtain ⟨k1, e1, h1, h2⟩ := hidx j (by simpa using hi)
          exact ⟨k1, e1, by simpa using h1, by simpa using h2⟩

/-- C2: on a table where every key maps to a one-element set, `apply`
succeeds and stores under `pipeline.state["Fields"]` the list whose i-th
element is the sole element of the i-th key's set, in table order, replacing
whatever the slot held before. -/
theorem referenced_apply_valid (p : Pipeline)
    (hv : ∀ kv ∈ p.field_mappings, isOneElemSet kv.2 = true) :
    ∃ fs, ReferencedFieldTransformation.apply p =
        (none, { p with state := stateSet p.state "Fields" fs }) ∧
      fs.length = p.field_mappings.length ∧
      (∀ i, i < p.field_mappings.length →
        ∃ k e, p.field_mappings[i]? = some (k, FMValue.pset [e]) ∧
          fs[i]? = some e) ∧
      stateGet (stateSet p.state "Fields" fs) "Fields" = some fs := by
  obtain ⟨fs, hfs, hlen, hidx⟩ := collectFields_ok_of_valid _ hv
  exact ⟨fs, by simp [ReferencedFieldTransformation.apply, hfs], hlen, hidx,
    stateGet_stateSet _ _ _⟩

/-- Witness for C2 at a one-entry valid table with a previously populated
slot. -/
theorem referenced_apply_valid_witness :
    (∀ kv ∈ (Pipeline.mk [("EventType", FMValue.pset ["Event.Type"])]
        [("Fields", ["Old"])]).field_mappings, isOneElemSet kv.2 = true) ∧
    ∃ fs, ReferencedFieldTransformation.apply
        (Pipeline.mk [("EventType", FMValue.pset ["Event.Type"])]
          [("Fields", ["Old"])]) =
        (none, { Pipeline.mk [("EventType", FMValue.pset ["Event.Type"])]
            [("Fields", ["Old"])] with
          state := stateSet [("Fields", ["Old"])] "Fields" fs }) ∧
      fs.length = 1 ∧
      (∀ i, i < 1 →
        ∃ k e, [("EventType", FMValue.pset ["Event.Type"])][i]? =
            some (k, FMValue.pset [e]) ∧ fs[i]? = some e) ∧
      stateGet (stateSet [("Fields", ["Old"])] "Fields" fs) "Fields" =
        some fs :=
  ⟨by decide,
    referenced_apply_valid
      (Pipeline.mk [("EventType", FMValue.pset ["Event.Type"])]
        [("Fields", ["Old"])]) (by decide)⟩

/-- C6: whenever `apply` fails, the pipeline — its state and in particular
the `"Fields"` slot — is exactly as it was before the call: the single write
stands after the validation loop, so no partial list is ever published. -/
theorem referenced_apply_failure_frame (p : Pipeline) (e : PyError)
    (h : (ReferencedFieldTransformation.apply p).1 = some e) :
    (ReferencedFieldTransformation.apply p).2 = p := by
  unfold ReferencedFieldTransformation.apply at h ⊢
  cases hc : collectFields p.field_mappings <;> simp [hc] at h ⊢

/-- Witness for C6 at a failing table with a previously populated slot. -/
theorem referenced_apply_failure_frame_witness :
    (ReferencedFieldTransformation.apply
        (Pipeline.mk [("bad", FMValue.nonSet "int")] [("Fields", ["Keep"])])).1 =
      some (PyError.typeError
        "Expected a set for key 'bad', but got int instead.") ∧
    (ReferencedFieldTransformation.apply
        (Pipeline.mk [("bad", FMValue.nonSet "int")] [("Fields", ["Keep"])])).2 =
      Pipeline.mk [("bad", FMValue.nonSet "int")] [("Fields", ["Keep"])] :=
  ⟨by decide,
    referenced_apply_failure_frame
      (Pipeline.mk [("bad", FMValue.nonSet "int")] [("Fields", ["Keep"])])
      (PyError.typeError "Expected a set for key 'bad', but got int instead.")
      (by decide)⟩

/-- C7: on a valid, unchanged table, applying the collector twice stores the
identical `"Fields"` list both times — the second call returns the very same
pipeline. -/
theorem referenced_apply_idempotent (p : Pipeline)
    (hv : ∀ kv ∈ p.field_mappings, isOneElemSet kv.2 = true) :
    ∃ fs p1, ReferencedFieldTransformation.apply p = (none, p1) ∧
      ReferencedFieldTransformation.apply p1 = (none, p1) ∧
      stateGet p1.state "Fields" = some fs := by
  obtain ⟨fs, hfs, _, _⟩ := collectFields_ok_of_valid p.field_mappings hv
  refine ⟨fs, { p with state := stateSet p.state "Fields" fs },
    by simp [ReferencedFieldTransformation.apply, hfs], ?_, stateGet_stateSet _ _ _⟩
  simp [ReferencedFieldTransformation.apply, hfs, stateSet_stateSet]

/-- Witness for C7 at a one-entry valid table. -/
theorem referenced_apply_idempotent_witness :
    (∀ kv ∈ (Pipeline.mk [("proc", FMValue.pset ["Proc.Name"])]
        []).field_mappings, isOneElemSet kv.2 = true) ∧
    ∃ fs p1,
      ReferencedFieldTransformation.apply
          (Pipeline.mk [("proc", FMValue.pset ["Proc.Name"])] []) = (none, p1) ∧
      ReferencedFieldTransformation.apply p1 = (none, p1) ∧
      stateGet p1.state "Fields" = some fs :=
  ⟨by decide,
    referenced_apply_idempotent
      (Pipeline.mk [("proc", FMValue.pset ["Proc.Name"])] []) (by decide)⟩

lemma collectFields_error_first_nonSet :
    ∀ (fm : List (String × FMValue)) (i : Nat) (k tn : String),
      fm[i]? = some (k, FMValue.nonSet tn) →
      (∀ kv ∈ fm.take i, isOneElemSet kv.2 = true) →
      collectFields fm = .error (.typeError ("Expected a set for key '" ++ k
        ++ "', but got " ++ tn ++ " instead.")) := by
  intro fm
  induction fm with
  | nil => intro i k tn hi _; simp at hi
  | cons kv rest ih =>
    intro i k tn hi hpre
    obtain ⟨k0, v0⟩ := kv
    cases i with
    | zero =>
      simp at hi
      obtain ⟨rfl, rfl⟩ := hi
      rfl
    | succ j =>
      have hhd : isOneElemSet v0 = true :=
        hpre (k0, v0) (by simp [List.take_succ_cons])
      cases v0 with
      | nonSet tn0 => simp [isOneElemSet] at hhd
      | pset elems =>
        have hlen : elems.length = 1 := by simpa [isOneElemSet] using hhd
        have htail := ih j k tn (by simpa using hi)
          (fun kv hkv => hpre kv (by simp [List.take_succ_cons, hkv]))
        simp [collectFields, hlen, htail, Except.map]

lemma collectFields_error_first_wrong_card :
    ∀ (fm : List (String × FMValue)) (i : Nat) (k : String)
      (elems : List String),
      fm[i]? = some (k, FMValue.pset elems) → elems.length ≠ 1 →
      (∀ kv ∈ fm.take i, isOneElemSet kv.2 = true) →
      collectFields fm = .error (.valueError
        ("Expected a set with exactly one element for key '" ++ k
          ++ "', but got " ++ toString elems.length
          ++ " elements instead.")) := by
  intro fm
  induction fm with
  | nil => intro i k elems hi _ _; simp at hi
  | cons kv rest ih =>
    intro i k elems hi hcard hpre
    obtain ⟨k0, v0⟩ := kv
    cases i with
    | zero =>
      simp at hi
      obtain ⟨rfl, rfl⟩ := hi
      simp [collectFields, hcard]
    | succ j =>
      have hhd : isOneElemSet v0 = true :=
        hpre (k0, v0) (by simp [List.take_succ_cons])
      cases v0 with
      | nonSet tn0 => simp [isOneElemSet] at hhd
      | pset elems0 =>
        have hlen : elems0.length = 1 := by simpa [isOneElemSet] using hhd
        have htail := ih j k elems (by simpa using hi) hcard
          (fun kv hkv => hpre kv (by simp [List.take_succ_cons, hkv]))
        simp [collectFields, hlen, htail, Except.map]

/-- C4 counterexample: a table that contains a non-set value (under key
`beta`, of kind `int`) but whose first entry fails the cardinality check
first, so `apply` raises a `ValueError` about `alpha` and no `TypeError` at
all — the claim's universally quantified form is false. -/
theorem referenced_apply_nonset_claim_counterexample :
    isTypeError (ReferencedFieldTransformation.apply
      (Pipeline.mk [("alpha", FMValue.pset []), ("beta", FMValue.nonSet "int")]
        [])).1 = false ∧
    (ReferencedFieldTransformation.apply
      (Pipeline.mk [("alpha", FMValue.pset []), ("beta", FMValue.nonSet "int")]
        [])).1 = some (PyError.valueError
      "Expected a set with exactly one element for key 'alpha', but got 0 elements instead.") :=
  ⟨by decide, by decide⟩

/-- C4 amended: when the first invalid entry of the table (in iteration
order) is a non-set value — every earlier entry being a one-element set —
`apply` fails with a `TypeError` naming that entry's key and the kind of its
value, leaving the pipeline unchanged. -/
theorem referenced_apply_first_nonset (p : Pipeline) (i : Nat) (k tn : String)
    (hi : p.field_mappings[i]? = some (k, FMValue.nonSet tn))
    (hpre : ∀ kv ∈ p.field_mappings.take i, isOneElemSet kv.2 = true) :
    ReferencedFieldTransformation.apply p =
      (some (PyError.typeError ("Expected a set for key '" ++ k
        ++ "', but got " ++ tn ++ " instead.")), p) := by
  simp [ReferencedFieldTransformation.apply,
    collectFields_error_first_nonSet p.field_mappings i k tn hi hpre]

/-- Witness for amended C4: a valid first entry followed by a list-valued
entry. -/
theorem referenced_apply_first_nonset_witness :
    (Pipeline.mk [("ok1", FMValue.pset ["T1"]), ("bad2", FMValue.nonSet "list")]
        []).field_mappings[1]? = some ("bad2", FMValue.nonSet "list") ∧
    (∀ kv ∈ (Pipeline.mk [("ok1", FMValue.pset ["T1"]),
        ("bad2", FMValue.nonSet "list")] []).field_mappings.take 1,
      isOneElemSet kv.2 = true) ∧
    ReferencedFieldTransformation.apply
        (Pipeline.mk [("ok1", FMValue.pset ["T1"]),
          ("bad2", FMValue.nonSet "list")] []) =
      (some (PyError.typeError ("Expected a set for key '" ++ "bad2"
        ++ "', but got " ++ "list" ++ " instead.")),
       Pipeline.mk [("ok1", FMValue.pset ["T1"]),
         ("bad2", FMValue.nonSet "list")] []) :=
  ⟨by decide, by decide,
    referenced_apply_first_nonset
      (Pipeline.mk [("ok1", FMValue.pset ["T1"]),
        ("bad2", FMValue.nonSet "list")] []) 1 "bad2" "list"
      (by decide) (by decide)⟩

/-- C5 counterexample: a table that contains a key (`delta`) whose set has
zero elements but whose first entry fails the set-type check first, so
`apply` raises a `TypeError` about `gamma` and no `ValueError` at all — the
claim's universally quantified form is false. -/
theorem referenced_apply_cardinality_claim_counterexample :
    isValueError (ReferencedFieldTransformation.apply
      (Pipeline.mk [("gamma", FMValue.nonSet "int"), ("delta", FMValue.pset [])]
        [])).1 = false ∧
    (ReferencedFieldTransformation.apply
      (Pipeline.mk [("gamma", FMValue.nonSet "int"), ("delta", FMValue.pset [])]
        [])).1 = some (PyError.typeError
      "Expected a set for key 'gamma', but got int instead.") :=
  ⟨by decide, by decide⟩

/-- C5 amended: when the first invalid entry of the table (in iteration
order) is a set of zero or of two or more elements — every earlier entry
being a one-element set — `apply` fails with a `ValueError` naming that
entry's key and the observed element count, leaving the pipeline
unchanged. -/
theorem referenced_apply_first_wrong_card (p : Pipeline) (i : Nat)
    (k : String) (elems : List String)
    (hi : p.field_mappings[i]? = some (k, FMValue.pset elems))
    (hcard : elems.length ≠ 1)
    (hpre : ∀ kv ∈ p.field_mappings.take i, isOneElemSet kv.2 = true) :
    ReferencedFieldTransformation.apply p =
      (some (PyError.valueError
        ("Expected a set with exactly one element for key '" ++ k
          ++ "', but got " ++ toString elems.length
          ++ " elements instead.")), p) := by
  simp [ReferencedFieldTransformation.apply,
    collectFields_error_first_wrong_card p.field_mappings i k elems hi hcard
      hpre]

/-- Witness for amended C5: a valid first entry followed by a two-element
set. -/
theorem referenced_apply_first_wrong_card_witness :
    (Pipeline.mk [("ok3", FMValue.pset ["T3"]),
        ("multi", FMValue.pset ["a", "b"])] []).field_mappings[1]? =
      some ("multi", FMValue.pset ["a", "b"]) ∧
    (["a", "b"] : List String).length ≠ 1 ∧
    (∀ kv ∈ (Pipeline.mk [("ok3", FMValue.pset ["T3"]),
        ("multi", FMValue.pset ["a", "b"])] []).field_mappings.take 1,
      isOneElemSet kv.2 = true) ∧
    ReferencedFieldTransformation.apply
        (Pipeline.mk [("ok3", FMValue.pset ["T3"]),
          ("multi", FMValue.pset ["a", "b"])] []) =
      (some (PyError.valueError
        ("Expected a set with exactly one element for key '" ++ "multi"
          ++ "', but got " ++ toString (["a", "b"] : List String).length
          ++ " elements instead.")),
       Pipeline.mk [("ok3", FMValue.pset ["T3"]),
         ("multi", FMValue.pset ["a", "b"])] []) :=
  ⟨by decide, by decide, by decide,
    referenced_apply_first_wrong_card
      (Pipeline.mk [("ok3", FMValue.pset ["T3"]),
        ("multi", FMValue.pset ["a", "b"])] []) 1 "multi" ["a", "b"]
      (by decide) (by decide) (by decide)⟩

end UberAgent
